import Mathlib

/-
  Verification development for the refet crate (ASCE Standardized Reference
  Evapotranspiration).  The definitions below are a shallow embedding of
  src/eta.rs and src/et.rs: f64 values are modelled as real numbers,
  fallible Rust code returning Result is modelled with Except, Option
  unwraps that can panic are modelled by an Option-valued result (none =
  panic).  The external climate crate (the Output observation record and
  the unit conversions) is not part of this repository; those pieces are
  modelled from the spec, as marked in their doc comments.
-/

namespace RefET

/-- The six Ea calculation methods of src/eta.rs (enum Method). -/
inductive Method
  | Direct
  | DewPoint
  | MaxMinRelativeHumidity
  | DailyMaxRelativeHumidity
  | DailyMinRelativeHumidity
  | DailyMinAirTemperature
  deriving DecidableEq

/-- Modelled from the spec: the external climate crate's Output record (one
weather observation, spec section 3), already unit-normalized: temperatures in
Celsius, ea in kPa, rs in MJ per square meter per day, ws in meters per
second, wz and z in meters, latitude in radians, and the date reduced to its
day-of-year ordinal (conversions.rs day_of_year is total on valid dates). -/
structure Output where
  tmax : ℝ
  tmin : ℝ
  ea : Option ℝ
  dewpoint : Option ℝ
  rhmax : Option ℝ
  rhmin : Option ℝ
  rs : Option ℝ
  ws : Option ℝ
  wz : ℝ
  z : ℝ
  latitude : ℝ
  doy : ℕ

/-- The EaInput struct of src/eta.rs. -/
structure EaInput where
  input : Option ℝ
  method : Method
  rhmax : Option ℝ
  rhmin : Option ℝ
  tmax : Option ℝ
  tmin : Option ℝ

/-- Temperature unit labels accepted by the EaInput constructors, already
parsed (the string parsing Units::from_abbreviation is external plumbing). -/
inductive TempUnits
  | Celsius
  | Fahrenheit

/-- Pressure unit labels accepted by EaInput::new_direct, already parsed. -/
inductive PressureUnits
  | KiloPascals
  | Pascals

/-- Modelled from the spec: the external unit adapter's Fahrenheit to Celsius
scalar conversion (spec section 1 lists Celsius/Fahrenheit conversion among the
external collaborators; the climate crate's Units::convert is not under src). -/
noncomputable def fahrenheitToCelsius (f : ℝ) : ℝ := (f - 32) * 5 / 9

/-- Modelled from the spec: the external unit adapter's Pascals to kilopascals
scalar conversion. -/
noncomputable def pascalsToKilopascals (p : ℝ) : ℝ := p / 1000

/-- EaInput::new_empty of src/eta.rs. -/
def EaInput.new_empty (method : Method) : EaInput :=
  { input := none, method := method, rhmax := none, rhmin := none,
    tmax := none, tmin := none }

/-- EaInput::new_direct of src/eta.rs (restricted to the two unit labels the
Rust match accepts; other labels panic and are never produced by callers). -/
noncomputable def EaInput.new_direct (input : ℝ) (units : PressureUnits) : EaInput :=
  let direct_value :=
    match units with
    | PressureUnits.KiloPascals => input
    | PressureUnits.Pascals => pascalsToKilopascals input
  { input := some direct_value, method := Method.Direct, rhmax := none,
    rhmin := none, tmax := none, tmin := none }

/-- EaInput::new_dewpoint of src/eta.rs. -/
noncomputable def EaInput.new_dewpoint (tdew : ℝ) (units : TempUnits) : EaInput :=
  let direct_value :=
    match units with
    | TempUnits.Celsius => tdew
    | TempUnits.Fahrenheit => fahrenheitToCelsius tdew
  { input := some direct_value, method := Method.DewPoint, rhmax := none,
    rhmin := none, tmax := none, tmin := none }

/-- EaInput::new_rhmax_min of src/eta.rs (the rh_units argument is only
validated there, never used, so it is dropped here). -/
noncomputable def EaInput.new_rhmax_min (rhmax rhmin tmax tmin : ℝ)
    (temp_units : TempUnits) : EaInput :=
  let e := EaInput.new_empty Method.MaxMinRelativeHumidity
  let e := { e with rhmax := some rhmax, rhmin := some rhmin }
  match temp_units with
  | TempUnits.Celsius => { e with tmax := some tmax, tmin := some tmin }
  | TempUnits.Fahrenheit =>
      { e with tmax := some (fahrenheitToCelsius tmax),
               tmin := some (fahrenheitToCelsius tmin) }

/-- EaInput::new_rhmax of src/eta.rs. -/
noncomputable def EaInput.new_rhmax (rhmax tmax : ℝ) (temp_units : TempUnits) : EaInput :=
  let e := EaInput.new_empty Method.DailyMaxRelativeHumidity
  let e := { e with rhmax := some rhmax }
  match temp_units with
  | TempUnits.Celsius => { e with tmax := some tmax }
  | TempUnits.Fahrenheit => { e with tmax := some (fahrenheitToCelsius tmax) }

/-- EaInput::new_rhmin of src/eta.rs.  Note: the Fahrenheit arm of the Rust
source (eta.rs line 191) assigns the converted temperature to the tmax field,
not tmin; this embedding reproduces that assignment faithfully. -/
noncomputable def EaInput.new_rhmin (rhmin tmin : ℝ) (temp_units : TempUnits) : EaInput :=
  let e := EaInput.new_empty Method.DailyMinRelativeHumidity
  let e := { e with rhmin := some rhmin }
  match temp_units with
  | TempUnits.Celsius => { e with tmin := some tmin }
  | TempUnits.Fahrenheit => { e with tmax := some (fahrenheitToCelsius tmin) }

/-- EaInput::new_tmin of src/eta.rs. -/
noncomputable def EaInput.new_tmin (tmin : ℝ) (units : TempUnits) : EaInput :=
  let tmin_value :=
    match units with
    | TempUnits.Celsius => tmin
    | TempUnits.Fahrenheit => fahrenheitToCelsius tmin
  { input := none, method := Method.DailyMinAirTemperature, rhmax := none,
    rhmin := none, tmax := none, tmin := some tmin_value }

/-- EaInput::new_from_output of src/eta.rs: the priority-ordered selection of
the Ea method from the available observation fields.  The Rust code passes the
literal unit labels "kPa" and "C" to every constructor, and it passes
output.get_tmax() to new_rhmax and output.get_tmin() to new_rhmin. -/
noncomputable def EaInput.new_from_output (o : Output) : EaInput :=
  match o.ea with
  | some v => EaInput.new_direct v PressureUnits.KiloPascals
  | none =>
  match o.dewpoint with
  | some d => EaInput.new_dewpoint d TempUnits.Celsius
  | none =>
  match o.rhmin, o.rhmax with
  | some rn, some rx => EaInput.new_rhmax_min rx rn o.tmax o.tmin TempUnits.Celsius
  | _, _ =>
  match o.rhmax with
  | some rx => EaInput.new_rhmax rx o.tmax TempUnits.Celsius
  | none =>
  match o.rhmin with
  | some rn => EaInput.new_rhmin rn o.tmin TempUnits.Celsius
  | none => EaInput.new_tmin o.tmin TempUnits.Celsius

/-- Saturation vapor pressure at temperature t in Celsius (Eq. 7); the same
formula appears as eo in src/et.rs and as EaInput::eo in src/eta.rs. -/
noncomputable def eo (t : ℝ) : ℝ := 0.6108 * Real.exp (17.27 * t / (t + 237.3))

/-- EaInput::get_ea of src/eta.rs. -/
noncomputable def EaInput.get_ea (e : EaInput) : Except String ℝ :=
  match e.input with
  | some v => Except.ok v
  | none => Except.error "must have an input value"

/-- EaInput::convert_from_tdew of src/eta.rs (Eq. 8). -/
noncomputable def EaInput.convert_from_tdew (e : EaInput) : Except String ℝ :=
  match e.input with
  | some v => Except.ok (eo v)
  | none => Except.error "must have an input value"

/-- EaInput::convert_from_tmin of src/eta.rs (Appendix E, Eq. E1). -/
noncomputable def EaInput.convert_from_tmin (e : EaInput) : Except String ℝ :=
  match e.tmin with
  | some tmin_v => Except.ok (eo (tmin_v - 3.0))
  | none => Except.error "tmin must be a valid input"

/-- EaInput::convert_min_max_rh of src/eta.rs (Eq. 11), with the same
normalization of relative humidities given as percentages. -/
noncomputable def EaInput.convert_min_max_rh (e : EaInput) : Except String ℝ :=
  match e.tmax with
  | none => Except.error "tmax must be a valid input"
  | some tmax_v =>
  match e.tmin with
  | none => Except.error "tmin must be a valid input"
  | some tmin_v =>
  match e.rhmax with
  | none => Except.error "RHmax must have valid value"
  | some rhmax0 =>
  match e.rhmin with
  | none => Except.error "RHmin must have valid value"
  | some rhmin0 =>
  let rhmax := if rhmax0 > 1 then rhmax0 / 100 else rhmax0
  let rhmin := if rhmin0 > 1 then rhmin0 / 100 else rhmin0
  Except.ok ((eo tmin_v * rhmax + eo tmax_v * rhmin) / 2)

/-- EaInput::convert_rhmin of src/eta.rs (Eq. 12): reads the tmin field. -/
noncomputable def EaInput.convert_rhmin (e : EaInput) : Except String ℝ :=
  match e.tmin with
  | none => Except.error "tmin must be a valid input"
  | some tmin_v =>
  match e.rhmin with
  | none => Except.error "RHmin must have valid value"
  | some rhmin0 =>
  let rhmin := if rhmin0 > 1 then rhmin0 / 100 else rhmin0
  Except.ok (eo tmin_v * rhmin)

/-- EaInput::convert_rhmax of src/eta.rs (Eq. 13): reads the tmax field. -/
noncomputable def EaInput.convert_rhmax (e : EaInput) : Except String ℝ :=
  match e.tmax with
  | none => Except.error "tmax must be a valid input"
  | some tmax_v =>
  match e.rhmax with
  | none => Except.error "RHmax must have valid value"
  | some rhmax0 =>
  let rhmax := if rhmax0 > 1 then rhmax0 / 100 else rhmax0
  Except.ok (eo tmax_v * rhmax)

/-- EaInput::ea of src/eta.rs: dispatch on the method. -/
noncomputable def EaInput.ea (e : EaInput) : Except String ℝ :=
  match e.method with
  | Method.Direct => e.get_ea
  | Method.DewPoint => e.convert_from_tdew
  | Method.MaxMinRelativeHumidity => e.convert_min_max_rh
  | Method.DailyMaxRelativeHumidity => e.convert_rhmax
  | Method.DailyMinRelativeHumidity => e.convert_rhmin
  | Method.DailyMinAirTemperature => e.convert_from_tmin

/-- calc_atmospheric_pressure of src/et.rs. -/
noncomputable def calc_atmospheric_pressure (z : ℝ) : ℝ :=
  ((293 - 0.0065 * z) / 293) ^ (5.26 : ℝ) * 101.3

/-- psy_constant of src/et.rs. -/
noncomputable def psy_constant (atmospheric_pressure : ℝ) : ℝ :=
  atmospheric_pressure * 0.000665

/-- mean_temp of src/et.rs. -/
noncomputable def mean_temp (max_temp min_temp : ℝ) : ℝ :=
  (max_temp + min_temp) / 2

/-- es_slope of src/et.rs (Eq. 5). -/
noncomputable def es_slope (tmean : ℝ) : ℝ :=
  let e := 17.27 * tmean / (tmean + 237.3)
  let num := 2503 * Real.exp e
  let denom := (tmean + 237.3) ^ 2
  num / denom

/-- es of src/et.rs (Eq. 6). -/
noncomputable def es (max_temp min_temp : ℝ) : ℝ :=
  (eo max_temp + eo min_temp) / 2

/-- inverse_rel_dist_factor of src/et.rs (Eq. 23). -/
noncomputable def inverse_rel_dist_factor (doy : ℕ) : ℝ :=
  1 + 0.033 * Real.cos (2 * Real.pi / 365 * (doy : ℝ))

/-- solar_declin of src/et.rs (Eq. 24). -/
noncomputable def solar_declin (doy : ℕ) : ℝ :=
  0.409 * Real.sin (2 * Real.pi / 365 * (doy : ℝ) - 1.39)

/-- sunset_hour_angle of src/et.rs (Eq. 27). -/
noncomputable def sunset_hour_angle (lat delta : ℝ) : ℝ :=
  Real.arccos (-1 * Real.tan lat * Real.tan delta)

/-- calc_ra of src/et.rs (Eq. 21). -/
noncomputable def calc_ra (latitude : ℝ) (doy : ℕ) : ℝ :=
  let dr := inverse_rel_dist_factor doy
  let delta := solar_declin doy
  let omega := sunset_hour_angle latitude delta
  24 / Real.pi * 4.92 * dr *
    (omega * Real.sin latitude * Real.sin delta +
      Real.cos latitude * Real.cos delta * Real.sin omega)

/-- calc_rso of src/et.rs (Eq. 19). -/
noncomputable def calc_rso (ra z : ℝ) : ℝ :=
  (0.75 + 2e-5 * z) * ra

/-- calc_fcd of src/et.rs; f64::clamp(0.3, 1.0) is min (max x 0.3) 1. -/
noncomputable def calc_fcd (rso rs : ℝ) : ℝ :=
  min (max (rs / rso) 0.3) 1 * 1.35 - 0.35

/-- calc_rnl of src/et.rs (Eq. 17). -/
noncomputable def calc_rnl (fcd ea tmax tmin : ℝ) : ℝ :=
  4.901e-9 * fcd * (0.34 - 0.14 * Real.sqrt ea) *
    ((tmax + 273.16) ^ 4 + (tmin + 273.16) ^ 4) / 2

/-- calc_rns of src/et.rs (Eq. 16). -/
noncomputable def calc_rns (rs : ℝ) : ℝ :=
  (1 - 0.23) * rs

/-- calc_rn of src/et.rs (Eq. 15). -/
noncomputable def calc_rn (rns rnl : ℝ) : ℝ :=
  rns - rnl

/-- calc_ws of src/et.rs (Eq. 33). -/
noncomputable def calc_ws (ws wz : ℝ) : ℝ :=
  if wz = 2 then ws
  else ws * (4.87 / Real.log (67.8 * wz - 5.42))

/-- calculate_hargreaves_samani_rs of src/et.rs. -/
noncomputable def calculate_hargreaves_samani_rs (tmax tmin ra : ℝ) : ℝ :=
  0.16 * ra * Real.sqrt (tmax - tmin)

/-- The solar-radiation block of calculate_ref_et (src/et.rs lines 52 to 63):
a measured rs is used as supplied; otherwise the Hargreaves-Samani estimate is
computed and limited to the clear-sky radiation. -/
noncomputable def rs_used (input : Output) : ℝ :=
  let extraterrestrial_radiation := calc_ra input.latitude input.doy
  let clear_sky_radiation := calc_rso extraterrestrial_radiation input.z
  match input.rs with
  | some rs_value => rs_value
  | none =>
    let harg_rs :=
      calculate_hargreaves_samani_rs input.tmax input.tmin extraterrestrial_radiation
    if harg_rs > clear_sky_radiation then clear_sky_radiation else harg_rs

/-- calculate_ref_et of src/et.rs.  The three unwraps that can panic are
modelled by the Option result (none = panic), in the order they occur in the
source: eta.ea().unwrap() at line 70, input.get_ws().unwrap() at line 80, and
input.get_ea().unwrap() inside the two ET formulas at lines 87 and 96.
day_of_year never fails (conversions.rs returns Ok(date.ordinal())), so the
date unwrap at line 43 is modelled by the doy field directly. -/
noncomputable def calculate_ref_et (input : Output) : Option (ℝ × ℝ) :=
  let eta := EaInput.new_from_output input
  let atmospheric_pressure := calc_atmospheric_pressure input.z
  let gamma := psy_constant atmospheric_pressure
  let mean_temperature := mean_temp input.tmax input.tmin
  let delta := es_slope mean_temperature
  let saturation_vapor_pressure := es input.tmax input.tmin
  let extraterrestrial_radiation := calc_ra input.latitude input.doy
  let clear_sky_radiation := calc_rso extraterrestrial_radiation input.z
  let rs := rs_used input
  let fraction_of_clear_day := calc_fcd clear_sky_radiation rs
  match eta.ea.toOption with
  | none => none
  | some ea_resolved =>
    let long_wave_radiation :=
      calc_rnl fraction_of_clear_day ea_resolved input.tmax input.tmin
    let short_wave_radiation := calc_rns rs
    let net_radiation := calc_rn short_wave_radiation long_wave_radiation
    match input.ws with
    | none => none
    | some ws_value =>
      let adjusted_wind_speed := calc_ws ws_value input.wz
      match input.ea with
      | none => none
      | some ea_raw =>
        let et_short_numerator :=
          0.408 * delta * (net_radiation - 0) +
            gamma * (900 / (mean_temperature + 273)) * adjusted_wind_speed *
              (saturation_vapor_pressure - ea_raw)
        let et_short_denominator := delta + gamma * (1 + 0.34 * adjusted_wind_speed)
        let et_tall_numerator :=
          0.408 * delta * (net_radiation - 0) +
            gamma * (1600 / (mean_temperature + 273)) * adjusted_wind_speed *
              (saturation_vapor_pressure - ea_raw)
        let et_tall_denominator := delta + gamma * (1 + 0.38 * adjusted_wind_speed)
        some (et_short_numerator / et_short_denominator,
          et_tall_numerator / et_tall_denominator)

/-- The priority chain of the spec (section 3 and section 9): Direct if ea is
present, else DewPoint if dewpoint is present, else MaxMinRelativeHumidity if
both rhmax and rhmin are present, else DailyMaxRelativeHumidity if only rhmax,
else DailyMinRelativeHumidity if only rhmin, else the DailyMinAirTemperature
fallback.  Stated from the spec wording, to be compared with
EaInput.new_from_output. -/
def methodFromAvailability (o : Output) : Method :=
  if o.ea.isSome then Method.Direct
  else if o.dewpoint.isSome then Method.DewPoint
  else if o.rhmax.isSome ∧ o.rhmin.isSome then Method.MaxMinRelativeHumidity
  else if o.rhmax.isSome then Method.DailyMaxRelativeHumidity
  else if o.rhmin.isSome then Method.DailyMinRelativeHumidity
  else Method.DailyMinAirTemperature

/-- The saturation vapor pressure helper eo is strictly increasing on
temperatures above minus 237.3 degrees Celsius. -/
theorem eo_lt_eo {a b : ℝ} (ha : -237.3 < a) (hab : a < b) : eo a < eo b := by
  have ha' : (0 : ℝ) < a + 237.3 := by linarith
  have hb' : (0 : ℝ) < b + 237.3 := by linarith
  have harg : 17.27 * a / (a + 237.3) < 17.27 * b / (b + 237.3) := by
    rw [div_lt_div_iff₀ ha' hb']
    nlinarith
  have hexp := Real.exp_lt_exp.mpr harg
  unfold eo
  nlinarith [hexp]

/-- Claim C5: EaInput::new_from_output selects exactly one of the six methods
by the strict priority chain Direct (ea present), then DewPoint (dewpoint
present), then MaxMinRelativeHumidity (both rhmax and rhmin), then
DailyMaxRelativeHumidity (only rhmax), then DailyMinRelativeHumidity (only
rhmin), then the DailyMinAirTemperature fallback; its method always equals
the spec-side selector methodFromAvailability. -/
theorem C5_method_priority_selection (o : Output) :
    (EaInput.new_from_output o).method = methodFromAvailability o := by
  rcases o with ⟨tmax, tmin, ea, dew, rx0, rn0, rs, ws, wz, z, lat, doy⟩
  cases ea <;> cases dew <;> cases rx0 <;> cases rn0 <;>
    simp [EaInput.new_from_output, methodFromAvailability, EaInput.new_direct,
      EaInput.new_dewpoint, EaInput.new_rhmax_min, EaInput.new_rhmax,
      EaInput.new_rhmin, EaInput.new_tmin, EaInput.new_empty]

/-- Claim C7: the 2-meter wind adjustment calc_ws is the identity at the
reference height 2 m, and for any other measurement height it is the
logarithmic profile ws times 4.87 divided by ln(67.8 wz minus 5.42). -/
theorem C7_wind_adjustment (ws wz : ℝ) :
    calc_ws ws 2 = ws ∧
      (wz ≠ 2 → calc_ws ws wz = ws * 4.87 / Real.log (67.8 * wz - 5.42)) := by
  constructor
  · simp [calc_ws]
  · intro h
    simp only [calc_ws, if_neg h, mul_div_assoc]

/-- Witness for claim C7 at the reference validation data point of the spec
(ws 1.94, heights 2 m and 3 m). -/
theorem C7_wind_adjustment_witness :
    calc_ws 1.94 2 = 1.94 ∧
      calc_ws 1.94 3 = 1.94 * 4.87 / Real.log (67.8 * 3 - 5.42) :=
  ⟨(C7_wind_adjustment 1.94 3).1, (C7_wind_adjustment 1.94 3).2 (by norm_num)⟩

/-- Claim C8 (refuting the claimed behavior at the failing inputs): for a wind
measurement height of 0.05 m the wind-log argument 67.8 wz minus 5.42 is
negative, yet calc_ws still evaluates the logarithmic formula on it instead of
reporting a DomainMath error, and for tmax 10, tmin 20 the Hargreaves-Samani
square-root argument is negative, yet calculate_hargreaves_samani_rs still
evaluates the square root; neither function has an error-reporting result
type. -/
theorem C8_domain_errors_not_reported :
    67.8 * (0.05 : ℝ) - 5.42 < 0 ∧
      calc_ws 2 0.05 = 2 * (4.87 / Real.log (67.8 * 0.05 - 5.42)) ∧
      (10 : ℝ) - 20 < 0 ∧
      calculate_hargreaves_samani_rs 10 20 30 = 0.16 * 30 * Real.sqrt (10 - 20) := by
  refine ⟨by norm_num, ?_, by norm_num, rfl⟩
  have h : (0.05 : ℝ) ≠ 2 := by norm_num
  simp only [calc_ws, if_neg h]

/-- Claim C9 (refuting the resolve-time guarantee at the failing input): the
smart constructor new_rhmin with Fahrenheit units stores the converted
temperature in the tmax field and leaves tmin empty, so resolving the
resulting DailyMinRelativeHumidity instance fails with the missing-field
error for tmin even though the instance came from a smart constructor. -/
theorem C9_smart_constructed_rhmin_fahrenheit_resolve_fails :
    (EaInput.new_rhmin 65 20 TempUnits.Fahrenheit).ea =
      Except.error "tmin must be a valid input" := by
  simp [EaInput.new_rhmin, EaInput.new_empty, EaInput.ea, EaInput.convert_rhmin]

/-- Helper: calculate_ref_et hits the unwrap of input.get_ea() inside the ET
formulas (src/et.rs lines 87 and 96) whenever the observation has no directly
measured ea, so the call panics (modelled as none). -/
theorem calculate_ref_et_panics_of_ea_none (o : Output) (h : o.ea = none) :
    calculate_ref_et o = none := by
  unfold calculate_ref_et
  rcases hE : (EaInput.new_from_output o).ea.toOption with _ | v
  · simp [hE]
  · rcases hw : o.ws with _ | w
    · simp [hE, hw]
    · simp [hE, hw, h]

/-- Helper: calculate_ref_et hits the unwrap of input.get_ws() (src/et.rs line
80) whenever the observation has no wind speed, so the call panics. -/
theorem calculate_ref_et_panics_of_ws_none (o : Output) (h : o.ws = none) :
    calculate_ref_et o = none := by
  unfold calculate_ref_et
  rcases hE : (EaInput.new_from_output o).ea.toOption with _ | v
  · simp [hE]
  · simp [hE, h]

/-- Claim C10: calculate_ref_et returns normally only when the observation
carries both a directly measured ea and a wind speed; for every observation
whose ea field is None or whose ws field is None the call panics on an unwrap
of None (modelled: the result is none). -/
theorem C10_panics_without_direct_ea_or_ws (o : Output)
    (h : o.ea = none ∨ o.ws = none) : calculate_ref_et o = none := by
  rcases h with h | h
  · exact calculate_ref_et_panics_of_ea_none o h
  · exact calculate_ref_et_panics_of_ws_none o h

/-- Witness for claim C10: a fully populated observation whose only missing
field is the directly measured ea (the DailyMinAirTemperature scenario)
makes calculate_ref_et panic. -/
theorem C10_panics_without_direct_ea_or_ws_witness :
    calculate_ref_et
      { tmax := 30, tmin := 10, ea := none, dewpoint := none, rhmax := none,
        rhmin := none, rs := some 20, ws := some 2, wz := 2, z := 100,
        latitude := 0.5, doy := 183 } = none :=
  C10_panics_without_direct_ea_or_ws _ (Or.inl rfl)

/-- The failing observation for claim C1: a dewpoint-scenario observation
(dewpoint 10 degrees Celsius, no directly measured ea, wind speed present). -/
noncomputable def C1obs : Output :=
  { tmax := 30, tmin := 10, ea := none, dewpoint := some 10, rhmax := none,
    rhmin := none, rs := some 20, ws := some 2, wz := 2, z := 100,
    latitude := 0.5, doy := 183 }

/-- Claim C1 (refuting the claimed behavior at the failing input): on the
dewpoint observation C1obs the VaporPressureResolver produces ea equal to
eo(10), but calculate_ref_et panics on input.get_ea().unwrap() inside the ET
formulas instead of using the resolved value, because the final formulas read
the raw ea field rather than the resolver output. -/
theorem C1_resolved_ea_never_reaches_formulas :
    (EaInput.new_from_output C1obs).ea = Except.ok (eo 10) ∧
      calculate_ref_et C1obs = none := by
  constructor
  · simp [C1obs, EaInput.new_from_output, EaInput.new_dewpoint, EaInput.ea,
      EaInput.convert_from_tdew]
  · exact calculate_ref_et_panics_of_ea_none C1obs rfl

/-- The failing observation for claim C2: only rhmax present (0.75, already in
the 0 to 1 range), with tmax 32 and tmin 10.9. -/
noncomputable def C2obs : Output :=
  { tmax := 32, tmin := 10.9, ea := none, dewpoint := none, rhmax := some 0.75,
    rhmin := none, rs := none, ws := none, wz := 2, z := 0,
    latitude := 0, doy := 183 }

/-- Claim C2 (refuting the claimed pairing at the failing input): in the
DailyMaxRelativeHumidity scenario the code resolves ea to eo(tmax) times
RHmax, because new_from_output passes output.get_tmax() to new_rhmax, and that
value differs from the eo(tmin) times RHmax the claim states whenever
tmax is not tmin. -/
theorem C2_rhmax_scenario_pairs_tmax :
    (EaInput.new_from_output C2obs).ea = Except.ok (eo 32 * 0.75) ∧
      eo 32 * 0.75 ≠ eo 10.9 * 0.75 := by
  constructor
  · have h1 : ¬ (0.75 : ℝ) > 1 := by norm_num
    simp [C2obs, EaInput.new_from_output, EaInput.new_rhmax, EaInput.new_empty,
      EaInput.ea, EaInput.convert_rhmax, h1]
  · have h : eo 10.9 < eo 32 := eo_lt_eo (by norm_num) (by norm_num)
    have : eo 10.9 * 0.75 < eo 32 * 0.75 := by nlinarith
    exact this.ne'

/-- The failing observation for claim C3: only rhmin present (0.45, already in
the 0 to 1 range), with tmax 32 and tmin 10.9. -/
noncomputable def C3obs : Output :=
  { tmax := 32, tmin := 10.9, ea := none, dewpoint := none, rhmax := none,
    rhmin := some 0.45, rs := none, ws := none, wz := 2, z := 0,
    latitude := 0, doy := 183 }

/-- Claim C3 (refuting the claimed pairing at the failing input): in the
DailyMinRelativeHumidity scenario the code resolves ea to eo(tmin) times
RHmin, because new_from_output passes output.get_tmin() to new_rhmin, and that
value differs from the eo(tmax) times RHmin the claim states whenever
tmax is not tmin. -/
theorem C3_rhmin_scenario_pairs_tmin :
    (EaInput.new_from_output C3obs).ea = Except.ok (eo 10.9 * 0.45) ∧
      eo 10.9 * 0.45 ≠ eo 32 * 0.45 := by
  constructor
  · have h1 : ¬ (0.45 : ℝ) > 1 := by norm_num
    simp [C3obs, EaInput.new_from_output, EaInput.new_rhmin, EaInput.new_empty,
      EaInput.ea, EaInput.convert_rhmin, h1]
  · have h : eo 10.9 < eo 32 := eo_lt_eo (by norm_num) (by norm_num)
    have : eo 10.9 * 0.45 < eo 32 * 0.45 := by nlinarith
    exact this.ne

/-- Claim C4: in the MaxMinRelativeHumidity scenario (no direct ea, no
dewpoint, both rhmax and rhmin present) the resolved actual vapor pressure is
(eo(tmin) times RHmax plus eo(tmax) times RHmin) divided by 2, where each
relative humidity strictly greater than 1 is first divided by 100 and a value
at most 1 is used unchanged. -/
theorem C4_min_max_rh_resolution (o : Output) (rx rn : ℝ)
    (hea : o.ea = none) (hdew : o.dewpoint = none)
    (hrx : o.rhmax = some rx) (hrn : o.rhmin = some rn) :
    (EaInput.new_from_output o).ea =
      Except.ok ((eo o.tmin * (if rx > 1 then rx / 100 else rx) +
        eo o.tmax * (if rn > 1 then rn / 100 else rn)) / 2) := by
  simp [EaInput.new_from_output, hea, hdew, hrx, hrn, EaInput.new_rhmax_min,
    EaInput.new_empty, EaInput.ea, EaInput.convert_min_max_rh]

/-- Witness for claim C4 at the test values of src/eta.rs (rhmax 75 percent,
rhmin 45 percent given as fractions, tmax 32, tmin 25). -/
theorem C4_min_max_rh_resolution_witness :
    (EaInput.new_from_output
      { tmax := 32, tmin := 25, ea := none, dewpoint := none,
        rhmax := some 0.75, rhmin := some 0.45, rs := none, ws := none,
        wz := 2, z := 0, latitude := 0, doy := 183 }).ea =
      Except.ok ((eo 25 * 0.75 + eo 32 * 0.45) / 2) := by
  have h := C4_min_max_rh_resolution
    { tmax := 32, tmin := 25, ea := none, dewpoint := none,
      rhmax := some 0.75, rhmin := some 0.45, rs := none, ws := none,
      wz := 2, z := 0, latitude := 0, doy := 183 } 0.75 0.45 rfl rfl rfl rfl
  have h1 : ¬ (0.75 : ℝ) > 1 := by norm_num
  have h2 : ¬ (0.45 : ℝ) > 1 := by norm_num
  simpa [h1, h2] using h

/-- The counterexample observation for claim C6: a measured solar radiation of
1000 MJ per square meter per day at the equator, far above any possible
clear-sky radiation, is passed through unclamped. -/
noncomputable def C6obs : Output :=
  { tmax := 30, tmin := 10, ea := some 1, dewpoint := none, rhmax := none,
    rhmin := none, rs := some 1000, ws := some 2, wz := 2, z := 0,
    latitude := 0, doy := 183 }

/-- Claim C6 counterexample: for the observation C6obs with a measured rs of
1000 the value used after step 5 exceeds the clear-sky radiation, so the
claimed invariant (Rs at most Rso for every observation, measured or
estimated) is false: the code clamps only the Hargreaves-Samani estimate. -/
theorem C6_measured_rs_exceeds_rso_counterexample :
    ¬ rs_used C6obs ≤ calc_rso (calc_ra C6obs.latitude C6obs.doy) C6obs.z := by
  have hrs : rs_used C6obs = 1000 := by
    simp [rs_used, C6obs]
  have hlat : C6obs.latitude = 0 := rfl
  have hdoy : C6obs.doy = 183 := rfl
  have hz : C6obs.z = (0 : ℝ) := rfl
  rw [hrs, hlat, hdoy, hz]
  have hpi : (3 : ℝ) < Real.pi := Real.pi_gt_three
  have hra : calc_ra 0 183 ≤ 41 := by
    unfold calc_ra
    simp only [Real.sin_zero, Real.cos_zero, mul_zero, zero_mul, zero_add, one_mul]
    have hdr_le : inverse_rel_dist_factor 183 ≤ 1.033 := by
      unfold inverse_rel_dist_factor
      nlinarith [Real.cos_le_one (2 * Real.pi / 365 * ((183 : ℕ) : ℝ))]
    have hdr_ge : (0 : ℝ) ≤ inverse_rel_dist_factor 183 := by
      unfold inverse_rel_dist_factor
      nlinarith [Real.neg_one_le_cos (2 * Real.pi / 365 * ((183 : ℕ) : ℝ))]
    have hcos_le := Real.cos_le_one (solar_declin 183)
    have hcos_ge := Real.neg_one_le_cos (solar_declin 183)
    have hsin_le := Real.sin_le_one (sunset_hour_angle 0 (solar_declin 183))
    have hsin_ge := Real.neg_one_le_sin (sunset_hour_angle 0 (solar_declin 183))
    have ht_le : Real.cos (solar_declin 183) *
        Real.sin (sunset_hour_angle 0 (solar_declin 183)) ≤ 1 := by
      nlinarith
    have ht_ge : (-1 : ℝ) ≤ Real.cos (solar_declin 183) *
        Real.sin (sunset_hour_angle 0 (solar_declin 183)) := by
      nlinarith
    have hc : 24 / Real.pi ≤ 8 := by
      rw [div_le_iff₀ (by linarith : (0 : ℝ) < Real.pi)]
      linarith
    have hc0 : (0 : ℝ) < 24 / Real.pi := by positivity
    nlinarith [mul_le_mul_of_nonneg_left ht_le
        (by positivity : (0 : ℝ) ≤ 24 / Real.pi * 4.92 * inverse_rel_dist_factor 183),
      mul_le_mul_of_nonneg_left hdr_le
        (by positivity : (0 : ℝ) ≤ 24 / Real.pi * 4.92)]
  have hrso : calc_rso (calc_ra 0 183) 0 ≤ 31 := by
    unfold calc_rso
    nlinarith [hra]
  intro hcon
  linarith

/-- Claim C6 as amended: the post-step-5 invariant Rs at most Rso holds for
every observation whose solar radiation is Hargreaves-Samani-estimated (no
measured rs); a measured rs is passed through unclamped. -/
theorem C6_estimated_rs_clamped_to_rso (o : Output) (h : o.rs = none) :
    rs_used o ≤ calc_rso (calc_ra o.latitude o.doy) o.z := by
  unfold rs_used
  rw [h]
  simp only
  split
  · exact le_rfl
  · next h' => exact le_of_not_lt h'

/-- Witness for the amended claim C6 at a concrete observation with no
measured solar radiation. -/
theorem C6_estimated_rs_clamped_to_rso_witness :
    rs_used
        { tmax := 30, tmin := 10, ea := some 1, dewpoint := none,
          rhmax := none, rhmin := none, rs := none, ws := some 2, wz := 2,
          z := 100, latitude := 0.5, doy := 183 } ≤
      calc_rso
        (calc_ra
          (Output.latitude
            { tmax := 30, tmin := 10, ea := some 1, dewpoint := none,
              rhmax := none, rhmin := none, rs := none, ws := some 2, wz := 2,
              z := 100, latitude := 0.5, doy := 183 })
          (Output.doy
            { tmax := 30, tmin := 10, ea := some 1, dewpoint := none,
              rhmax := none, rhmin := none, rs := none, ws := some 2, wz := 2,
              z := 100, latitude := 0.5, doy := 183 }))
        (Output.z
          { tmax := 30, tmin := 10, ea := some 1, dewpoint := none,
            rhmax := none, rhmin := none, rs := none, ws := some 2, wz := 2,
            z := 100, latitude := 0.5, doy := 183 }) :=
  C6_estimated_rs_clamped_to_rso _ rfl

end RefET
